import Mathlib

/-!
Verification development for the EMF compliance dashboard.

The Python sources `app.py` (configuration builder and engine launcher) and
`data_loader.py` (results loading and statistics) are embedded shallowly:

* DataFrames are lists of `Row` records; pandas column reductions (`max`, `min`,
  `mean`, `idxmax`) become the corresponding list folds; `pivot_table` +
  `reindex` becomes a per-cell group lookup where a missing cell (NaN) is `none`.
* Python floats are modelled as rationals (every float literal and float
  arithmetic result in scope is a rational); the C++ engine's percentage rule,
  which the spec states with a square root, is modelled over the reals.
* The multi-source aggregation rule of the C++ engine is not part of this
  repository's sources, so it is modelled from the spec (section 4.5) and marked
  as such.
-/

namespace Emf

/-- Embedding of one row of the results DataFrame loaded from `results.csv`
(columns `x, y, z, field_value_v_m, limit_v_m, percentage_of_limit, status`). -/
structure Row where
  x : ℚ
  y : ℚ
  z : ℚ
  field_value_v_m : ℚ
  limit_v_m : ℚ
  percentage_of_limit : ℚ
  status : String
deriving DecidableEq

/-- Embedding of pandas `Series.max` over a column: fold of `max`, `none` on an
empty series (where pandas yields NaN). -/
def seriesMax (l : List ℚ) : Option ℚ := l.max?

/-- Embedding of pandas `Series.min`. -/
def seriesMin (l : List ℚ) : Option ℚ := l.min?

/-- Embedding of pandas `Series.mean`: sum divided by count, `none` on an empty
series. -/
def seriesMean (l : List ℚ) : Option ℚ :=
  if l = [] then none else some (l.sum / l.length)

/-- Embedding of `df[col].idxmax()` followed by `df.loc[idx]`: the first row
attaining the maximal value of `f`; `none` on an empty frame (where pandas
raises). -/
def idxmaxRow (f : Row → ℚ) : List Row → Option Row
  | [] => none
  | r :: rs => some (rs.foldl (fun best c => if f best < f c then c else best) r)

/-- Embedding of the dictionary returned by `data_loader.get_max_exposure_point`. -/
structure MaxExposurePoint where
  x : ℚ
  y : ℚ
  z : ℚ
  field_value : ℚ
  limit : ℚ
  percentage : ℚ
  status : String
deriving DecidableEq

/-- Embedding of `data_loader.get_max_exposure_point`: projects the row found by
`idxmax` on `percentage_of_limit`. -/
def get_max_exposure_point (df : List Row) : Option MaxExposurePoint :=
  (idxmaxRow (fun r => r.percentage_of_limit) df).map fun max_row =>
    { x := max_row.x
      y := max_row.y
      z := max_row.z
      field_value := max_row.field_value_v_m
      limit := max_row.limit_v_m
      percentage := max_row.percentage_of_limit
      status := max_row.status }

/-- Embedding of the dictionary returned by `data_loader.get_statistics`. -/
structure Statistics where
  total_points : ℕ
  compliant_count : ℕ
  marginal_count : ℕ
  non_compliant_count : ℕ
  mean_field : Option ℚ
  max_field : Option ℚ
  min_field : Option ℚ
  mean_percentage : Option ℚ
  max_percentage : Option ℚ
deriving DecidableEq

/-- Embedding of `data_loader.get_statistics`. -/
def get_statistics (df : List Row) : Statistics :=
  { total_points := df.length
    compliant_count := (df.filter fun r => r.status == "COMPLIANT").length
    marginal_count := (df.filter fun r => r.status == "MARGINAL").length
    non_compliant_count := (df.filter fun r => r.status == "NON_COMPLIANT").length
    mean_field := seriesMean (df.map fun r => r.field_value_v_m)
    max_field := seriesMax (df.map fun r => r.field_value_v_m)
    min_field := seriesMin (df.map fun r => r.field_value_v_m)
    mean_percentage := seriesMean (df.map fun r => r.percentage_of_limit)
    max_percentage := seriesMax (df.map fun r => r.percentage_of_limit) }

/-- Embedding of `np.sort(df[c].unique())`: the distinct values of a column in
ascending order. -/
def sortedUnique (l : List ℚ) : List ℚ := List.insertionSort (· ≤ ·) l.dedup

/-- Embedding of one pandas pivot group: the rows of `df` whose coordinates are
`(xv, yv)` (pivot with `index='y'`, `columns='x'`). -/
def cellRows (df : List Row) (xv yv : ℚ) : List Row :=
  df.filter fun r => r.x == xv && r.y == yv

/-- Embedding of one cell of `pivot_table(values=col, index='y', columns='x',
aggfunc='mean')` after `reindex`: `none` is a NaN cell (no row at these
coordinates). -/
def pivotCell (df : List Row) (col : Row → ℚ) (xv yv : ℚ) : Option ℚ :=
  seriesMean ((cellRows df xv yv).map col)

/-- Embedding of `data_loader.pivot_to_grid`: the meshgrid arrays `X` and `Y`
and the value grid `Z`, with rows indexed by ascending distinct `y` and columns
by ascending distinct `x`. -/
def pivot_to_grid (df : List Row) (col : Row → ℚ) :
    List (List ℚ) × List (List ℚ) × List (List (Option ℚ)) :=
  let x_unique := sortedUnique (df.map fun r => r.x)
  let y_unique := sortedUnique (df.map fun r => r.y)
  (y_unique.map fun _ => x_unique,
   y_unique.map fun yv => x_unique.map fun _ => yv,
   y_unique.map fun yv => x_unique.map fun xv => pivotCell df col xv yv)

/-- Embedding of numpy `astype(bool)` on a pivot cell that may be NaN after
`reindex`: `0.0` is `false`, `1.0` is `true`, and NaN (`none`) is `true`
because NaN is truthy. -/
def astypeBool : Option Bool → Bool
  | none => true
  | some b => b

/-- Embedding of one cell of a pivot whose aggfunc computes a boolean over the
statuses of the group's rows (`1 if ... else 0` in the source): groups only
exist where `df` has a row, and `reindex` fills the remaining cells with NaN
(`none`). -/
def maskCell (df : List Row) (p : List Row → Bool) (xv yv : ℚ) : Option Bool :=
  match cellRows df xv yv with
  | [] => none
  | g => some (p g)

/-- Embedding of `data_loader.get_compliance_mask`: the three boolean masks
(compliant: all rows of the cell `COMPLIANT`; marginal: any row `MARGINAL`;
non-compliant: any row `NON_COMPLIANT`). -/
def get_compliance_mask (df : List Row) :
    List (List Bool) × List (List Bool) × List (List Bool) :=
  let x_unique := sortedUnique (df.map fun r => r.x)
  let y_unique := sortedUnique (df.map fun r => r.y)
  (y_unique.map fun yv => x_unique.map fun xv =>
     astypeBool (maskCell df (fun g => g.all fun r => r.status == "COMPLIANT") xv yv),
   y_unique.map fun yv => x_unique.map fun xv =>
     astypeBool (maskCell df (fun g => g.any fun r => r.status == "MARGINAL") xv yv),
   y_unique.map fun yv => x_unique.map fun xv =>
     astypeBool (maskCell df (fun g => g.any fun r => r.status == "NON_COMPLIANT") xv yv))

/-- Embedding of the dataclass `AntennaDefinition` of `app.py`. -/
structure AntennaDefinition where
  id : String
  antenna_type : String
  pattern_file : String
  frequency_mhz : ℚ
  power_eirp_watts : ℚ
  azimuth_deg : ℚ
  tilt_deg : ℚ
  height_offset : ℚ
  enabled : Bool
deriving DecidableEq

/-- Embedding of the dataclass `BaseStation` of `app.py`. -/
structure BaseStation where
  id : String
  name : String
  x : ℚ
  y : ℚ
  tower_height : ℚ
  antennas : List AntennaDefinition
deriving DecidableEq

/-- Embedding of the dataclass `SimulationConfig` of `app.py`. -/
structure SimulationConfig where
  name : String
  x_min : ℚ
  x_max : ℚ
  y_min : ℚ
  y_max : ℚ
  z_level : ℚ
  resolution : ℚ
  standard : String
  category : String
deriving DecidableEq

/-- The default `SimulationConfig` of `app.py` (its dataclass field defaults). -/
def defaultSimulationConfig : SimulationConfig :=
  { name := "EMF Analysis"
    x_min := -100
    x_max := 100
    y_min := -100
    y_max := 100
    z_level := 3 / 2
    resolution := 1
    standard := "ICNIRP_2020"
    category := "general_public" }

/-- Embedding of the Streamlit session state fields set up by
`init_session_state`; `generate_yaml_config` reads only `sim_config` and
`base_stations`. -/
structure SessionState where
  base_stations : List BaseStation
  sim_config : SimulationConfig
  results_df : Option (List Row)
  report : Option String
  selected_point : Option (ℚ × ℚ)
  next_bs_id : ℕ
  next_ant_id : ℕ
deriving DecidableEq

/-- Embedding of the `position` sub-dictionary of a generated antenna entry. -/
structure Position where
  x : ℚ
  y : ℚ
  z : ℚ
deriving DecidableEq

/-- Embedding of the `orientation` sub-dictionary of a generated antenna entry. -/
structure Orientation where
  azimuth_deg : ℚ
  tilt_deg : ℚ
deriving DecidableEq

/-- Embedding of one entry of the generated `antennas` list; its fields are
exactly the keys written by `generate_yaml_config`. -/
structure YamlAntennaEntry where
  id : String
  pattern_file : String
  frequency_mhz : ℚ
  power_eirp_watts : ℚ
  position : Position
  orientation : Orientation
deriving DecidableEq

/-- Embedding of the `grid` sub-dictionary of the generated YAML document. -/
structure YamlGrid where
  x_min : ℚ
  x_max : ℚ
  y_min : ℚ
  y_max : ℚ
  z_level : ℚ
  resolution : ℚ
deriving DecidableEq

/-- Embedding of the `compliance` sub-dictionary of the generated YAML document. -/
structure YamlCompliance where
  standard : String
  category : String
deriving DecidableEq

/-- Embedding of the full generated YAML document; its fields are exactly the
top-level keys written by `generate_yaml_config`. The YAML text returned by the
source is `yaml.dump` of this value, a fixed pure function of it. -/
structure YamlConfig where
  name : String
  grid : YamlGrid
  compliance : YamlCompliance
  antennas : List YamlAntennaEntry
deriving DecidableEq

/-- Embedding of `app.generate_yaml_config`: builds the YAML document from the
session state, flattening the enabled antennas of all base stations. -/
def generate_yaml_config (s : SessionState) : YamlConfig :=
  let config := s.sim_config
  { name := config.name
    grid :=
      { x_min := config.x_min
        x_max := config.x_max
        y_min := config.y_min
        y_max := config.y_max
        z_level := config.z_level
        resolution := config.resolution }
    compliance :=
      { standard := config.standard
        category := config.category }
    antennas := s.base_stations.flatMap fun bs =>
      (bs.antennas.filter fun ant => ant.enabled).map fun ant =>
        { id := bs.id ++ "_" ++ ant.id
          pattern_file := ant.pattern_file
          frequency_mhz := ant.frequency_mhz
          power_eirp_watts := ant.power_eirp_watts
          position :=
            { x := bs.x
              y := bs.y
              z := bs.tower_height + ant.height_offset }
          orientation :=
            { azimuth_deg := ant.azimuth_deg
              tilt_deg := ant.tilt_deg } } }

/-- Embedding of how the engine subprocess call of `app.run_analysis` can end:
it completes with an exit code and captured output, times out, or raises. -/
inductive RunOutcome where
  | completed (returncode : Int) (stdout : String) (stderr : String)
  | timedOut
  | raised (msg : String)
deriving DecidableEq

/-- Embedding of `app.run_analysis`, as a function of whether the executable
exists and of the subprocess outcome, returning the `(success, output)` pair.
The side effects (temp file, creating the output directory, loading result
files into the session) do not influence the returned pair and are omitted. -/
def run_analysis (executable_exists : Bool) (outcome : RunOutcome) : Bool × String :=
  if executable_exists = false then
    (false, "Executable not found")
  else
    match outcome with
    | RunOutcome.completed rc out err =>
        let output := if err = "" then out else out ++ "\n" ++ err
        if rc = 2 then
          (false, "Configuration error:\n" ++ output)
        else
          (true, output)
    | RunOutcome.timedOut => (false, "Analysis timed out (exceeded 5 minutes)")
    | RunOutcome.raised msg => (false, "Error: " ++ msg)

/-- Embedding of Python `int(...)` on a number: truncation toward zero. -/
def pyInt (q : ℚ) : ℤ := if 0 ≤ q then ⌊q⌋ else ⌈q⌉

/-- Embedding of the grid-info caption of `app.render_simulation_controls`:
`nx = int((x_max - x_min) / resolution) + 1`. -/
def grid_nx (c : SimulationConfig) : ℤ := pyInt ((c.x_max - c.x_min) / c.resolution) + 1

/-- Embedding of `ny = int((y_max - y_min) / resolution) + 1`. -/
def grid_ny (c : SimulationConfig) : ℤ := pyInt ((c.y_max - c.y_min) / c.resolution) + 1

/-- Embedding of the displayed total point count `nx * ny`. -/
def grid_total_points (c : SimulationConfig) : ℤ := grid_nx c * grid_ny c

/-- Modelled from the spec: the per-antenna data consumed by the Multi-Source
Aggregator (spec section 4.5) of the C++ engine, whose source is not part of
this repository: the antenna's field contribution `E_i` at the evaluation
point, its own frequency's limit, and its enabled flag. -/
structure SourceContribution where
  field_v_m : ℝ
  limit_v_m : ℝ
  enabled : Bool

/-- Modelled from the spec (section 4.5): the total exposure ratio
`R = sum of r_i` over the enabled antennas, with `r_i = (E_i / limit_i)^2`. -/
noncomputable def totalRatio (antennas : List SourceContribution) : ℝ :=
  ((antennas.filter fun a => a.enabled).map fun a => (a.field_v_m / a.limit_v_m) ^ 2).sum

/-- Modelled from the spec (section 4.5): the reported percentage of limit,
`100 * sqrt R`. -/
noncomputable def evaluate_percentage (antennas : List SourceContribution) : ℝ :=
  100 * Real.sqrt (totalRatio antennas)

/-- Concrete results row used by witnesses: the point `(0, 0)`. -/
def dfRow0 : Row :=
  { x := 0, y := 0, z := 2, field_value_v_m := 1, limit_v_m := 10
    percentage_of_limit := 10, status := "COMPLIANT" }

/-- Concrete results row used by witnesses: the point `(1, 0)`. -/
def dfRow1 : Row :=
  { x := 1, y := 0, z := 2, field_value_v_m := 2, limit_v_m := 10
    percentage_of_limit := 90, status := "MARGINAL" }

/-- Concrete two-point results DataFrame used by witnesses. -/
def dfA : List Row := [dfRow0, dfRow1]

/-- Row permutation of `dfA` used by the pivot witnesses. -/
def dfB : List Row := [dfRow1, dfRow0]

/-- Concrete enabled antenna used by the configuration witnesses. -/
def demoAntenna : AntennaDefinition :=
  { id := "ANT1", antenna_type := "Isotropic", pattern_file := "isotropic"
    frequency_mhz := 1800, power_eirp_watts := 50, azimuth_deg := 0
    tilt_deg := 0, height_offset := 0, enabled := true }

/-- Concrete disabled antenna used by the configuration witnesses. -/
def demoDisabledAntenna : AntennaDefinition :=
  { id := "ANT2", antenna_type := "Isotropic", pattern_file := "isotropic"
    frequency_mhz := 900, power_eirp_watts := 80, azimuth_deg := 120
    tilt_deg := -3, height_offset := -1 / 2, enabled := false }

/-- Concrete base station used by the configuration witnesses. -/
def demoStation : BaseStation :=
  { id := "BS1", name := "Site_1", x := 10, y := 20, tower_height := 30
    antennas := [demoAntenna, demoDisabledAntenna] }

/-- Concrete session state used by the configuration witnesses. -/
def demoState : SessionState :=
  { base_stations := [demoStation], sim_config := defaultSimulationConfig
    results_df := none, report := none, selected_point := none
    next_bs_id := 2, next_ant_id := 3 }

/-- A session state equal to `demoState` on the fields `generate_yaml_config`
reads, and different elsewhere. -/
def demoState2 : SessionState :=
  { base_stations := [demoStation], sim_config := defaultSimulationConfig
    results_df := some dfA, report := some "r", selected_point := some (1, 2)
    next_bs_id := 7, next_ant_id := 9 }

/-- The antenna entry that `generate_yaml_config demoState` exports. -/
def demoEntry : YamlAntennaEntry :=
  { id := "BS1_ANT1", pattern_file := "isotropic", frequency_mhz := 1800
    power_eirp_watts := 50, position := { x := 10, y := 20, z := 30 }
    orientation := { azimuth_deg := 0, tilt_deg := 0 } }

/-! Helper lemmas shared by the claim theorems. -/

/-- The fold used by `idxmaxRow` returns either its seed or a list element, is
at least as large as the seed under `f`, and dominates every list element. -/
theorem foldl_pick_spec (f : Row → ℚ) (l : List Row) :
    ∀ r : Row,
      (l.foldl (fun best c => if f best < f c then c else best) r = r ∨
        l.foldl (fun best c => if f best < f c then c else best) r ∈ l) ∧
      f r ≤ f (l.foldl (fun best c => if f best < f c then c else best) r) ∧
      ∀ c ∈ l, f c ≤ f (l.foldl (fun best c => if f best < f c then c else best) r) := by
  induction l with
  | nil => intro r; simp
  | cons a as ih =>
    intro r
    simp only [List.foldl_cons]
    obtain ⟨hmem, hge, hub⟩ := ih (if f r < f a then a else r)
    have hseed : f r ≤ f (if f r < f a then a else r) := by
      split
      · exact le_of_lt (by assumption)
      · exact le_rfl
    have hhead : f a ≤ f (if f r < f a then a else r) := by
      split
      · exact le_rfl
      · exact le_of_not_lt (by assumption)
    refine ⟨?_, le_trans hseed hge, ?_⟩
    · rcases hmem with h | h
      · rw [h]
        split
        · exact Or.inr (List.mem_cons_self a as)
        · exact Or.inl rfl
      · exact Or.inr (List.mem_cons_of_mem a h)
    · intro c hc
      rcases List.mem_cons.mp hc with rfl | hc
      · exact le_trans hhead hge
      · exact hub c hc

/-- `idxmaxRow` on a nonempty frame returns a row of the frame that dominates
every row under `f`. -/
theorem idxmaxRow_spec (f : Row → ℚ) (df : List Row) (hne : df ≠ []) :
    ∃ r ∈ df, idxmaxRow f df = some r ∧ ∀ s ∈ df, f s ≤ f r := by
  cases df with
  | nil => exact absurd rfl hne
  | cons a as =>
    obtain ⟨hmem, hge, hub⟩ := foldl_pick_spec f as a
    refine ⟨as.foldl (fun best c => if f best < f c then c else best) a, ?_, rfl, ?_⟩
    · rcases hmem with h | h
      · rw [h]; exact List.mem_cons_self a as
      · exact List.mem_cons_of_mem a h
    · intro s hs
      rcases List.mem_cons.mp hs with rfl | hs
      · exact hge
      · exact hub s hs

/-- `List.max?` on a nonempty rational list returns an attained upper bound. -/
theorem max?_spec (l : List ℚ) (hne : l ≠ []) :
    ∃ M, l.max? = some M ∧ M ∈ l ∧ ∀ v ∈ l, v ≤ M := by
  cases l with
  | nil => exact absurd rfl hne
  | cons a as =>
    refine ⟨as.foldl max a, List.max?_cons', ?_, ?_⟩
    · exact List.max?_mem (fun x y => max_choice x y) List.max?_cons'
    · exact (List.max?_le_iff (fun x y z => max_le_iff) List.max?_cons').mp le_rfl

/-- `seriesMax` over a mapped column of a nonempty frame is an attained upper
bound of that column. -/
theorem seriesMax_spec (f : Row → ℚ) (df : List Row) (hne : df ≠ []) :
    ∃ M, seriesMax (df.map f) = some M ∧ (∃ r ∈ df, f r = M) ∧ ∀ s ∈ df, f s ≤ M := by
  obtain ⟨M, hM, hmem, hub⟩ := max?_spec (df.map f) (by simpa using hne)
  refine ⟨M, hM, ?_, ?_⟩
  · obtain ⟨r, hr, hrM⟩ := List.mem_map.mp hmem
    exact ⟨r, hr, hrM⟩
  · intro s hs
    exact hub (f s) (List.mem_map_of_mem f hs)

/-- The three status filters of `get_statistics` partition a frame whose rows
all carry one of the three status strings. -/
theorem status_filter_partition (df : List Row)
    (h : ∀ r ∈ df,
      r.status = "COMPLIANT" ∨ r.status = "MARGINAL" ∨ r.status = "NON_COMPLIANT") :
    (df.filter fun r => r.status == "COMPLIANT").length +
      (df.filter fun r => r.status == "MARGINAL").length +
      (df.filter fun r => r.status == "NON_COMPLIANT").length = df.length := by
  induction df with
  | nil => rfl
  | cons r rs ih =>
    have hr := h r (List.mem_cons_self r rs)
    have hrs : ∀ x ∈ rs,
        x.status = "COMPLIANT" ∨ x.status = "MARGINAL" ∨ x.status = "NON_COMPLIANT" :=
      fun x hx => h x (List.mem_cons_of_mem r hx)
    have hrec := ih hrs
    simp only [List.filter_cons, List.length_cons]
    rcases hr with h1 | h1 | h1 <;> simp [h1] <;> omega

/-- Evaluation of the generated antenna list for the demo session state: only
the enabled demo antenna is exported. -/
theorem demoState_antennas_eq : (generate_yaml_config demoState).antennas = [demoEntry] := by
  norm_num [generate_yaml_config, demoState, demoStation, demoAntenna, demoDisabledAntenna,
    demoEntry, List.filter_cons]
  rfl

/-! Claim theorems. -/

/-- C2: the claim fails on the code. `run_analysis` only special-cases exit
code 2; every other completed run, including any other non-zero exit code, is
reported as success. Evaluated at exit codes 1, 2 and 0: exit code 1 yields
`(true, ...)`, i.e. success, where the claim requires a reported internal
failure. -/
theorem run_analysis_exit_code_handling :
    run_analysis true (RunOutcome.completed 1 "engine crashed" "") = (true, "engine crashed") ∧
    run_analysis true (RunOutcome.completed 2 "bad config" "") =
      (false, "Configuration error:\n" ++ "bad config") ∧
    run_analysis true (RunOutcome.completed 0 "ok" "") = (true, "ok") :=
  ⟨rfl, rfl, rfl⟩

/-- C3: for grids with `x_min ≤ x_max`, `y_min ≤ y_max` and positive
resolution, the computed dimensions are the floor formulas of the spec, and the
displayed total equals `nx * ny`. -/
theorem grid_dimensions_floor_formula (c : SimulationConfig)
    (hx : c.x_min ≤ c.x_max) (hy : c.y_min ≤ c.y_max) (hres : 0 < c.resolution) :
    grid_nx c = ⌊(c.x_max - c.x_min) / c.resolution⌋ + 1 ∧
    grid_ny c = ⌊(c.y_max - c.y_min) / c.resolution⌋ + 1 ∧
    grid_total_points c = grid_nx c * grid_ny c := by
  have h1 : (0 : ℚ) ≤ (c.x_max - c.x_min) / c.resolution :=
    div_nonneg (by linarith) hres.le
  have h2 : (0 : ℚ) ≤ (c.y_max - c.y_min) / c.resolution :=
    div_nonneg (by linarith) hres.le
  refine ⟨?_, ?_, rfl⟩
  · unfold grid_nx pyInt
    rw [if_pos h1]
  · unfold grid_ny pyInt
    rw [if_pos h2]

/-- Witness for C3 at the default simulation configuration: the hypotheses hold
and the computed grid is 201 by 201 with 40401 displayed points. -/
theorem grid_dimensions_floor_formula_witness :
    defaultSimulationConfig.x_min ≤ defaultSimulationConfig.x_max ∧
    defaultSimulationConfig.y_min ≤ defaultSimulationConfig.y_max ∧
    0 < defaultSimulationConfig.resolution ∧
    grid_nx defaultSimulationConfig = 201 ∧
    grid_ny defaultSimulationConfig = 201 ∧
    grid_total_points defaultSimulationConfig =
      grid_nx defaultSimulationConfig * grid_ny defaultSimulationConfig := by
  obtain ⟨h1, h2, h3⟩ := grid_dimensions_floor_formula defaultSimulationConfig
    (by norm_num [defaultSimulationConfig]) (by norm_num [defaultSimulationConfig])
    (by norm_num [defaultSimulationConfig])
  refine ⟨by norm_num [defaultSimulationConfig], by norm_num [defaultSimulationConfig],
    by norm_num [defaultSimulationConfig], ?_, ?_, h3⟩
  · rw [h1]; norm_num [defaultSimulationConfig]
  · rw [h2]; norm_num [defaultSimulationConfig]

/-- C5: on a frame whose rows each carry one of the three status strings, the
three status counts of `get_statistics` sum to `total_points`, which is the
number of rows. -/
theorem get_statistics_counts_partition (df : List Row)
    (h : ∀ r ∈ df,
      r.status = "COMPLIANT" ∨ r.status = "MARGINAL" ∨ r.status = "NON_COMPLIANT") :
    (get_statistics df).compliant_count + (get_statistics df).marginal_count +
      (get_statistics df).non_compliant_count = (get_statistics df).total_points ∧
    (get_statistics df).total_points = df.length :=
  ⟨status_filter_partition df h, rfl⟩

/-- Witness for C5 on the concrete frame `dfA`. -/
theorem get_statistics_counts_partition_witness :
    (∀ r ∈ dfA,
      r.status = "COMPLIANT" ∨ r.status = "MARGINAL" ∨ r.status = "NON_COMPLIANT") ∧
    (get_statistics dfA).compliant_count + (get_statistics dfA).marginal_count +
      (get_statistics dfA).non_compliant_count = (get_statistics dfA).total_points ∧
    (get_statistics dfA).total_points = dfA.length := by
  have h := get_statistics_counts_partition dfA (by decide)
  exact ⟨by decide, h.1, h.2⟩

/-- C6: `generate_yaml_config` is a function of the simulation configuration
and the base-station list alone; two session states agreeing on those fields
produce the same YAML document, hence character-identical YAML strings under
the fixed pure serializer. -/
theorem generate_yaml_config_deterministic (s₁ s₂ : SessionState)
    (hcfg : s₁.sim_config = s₂.sim_config)
    (hbs : s₁.base_stations = s₂.base_stations) :
    generate_yaml_config s₁ = generate_yaml_config s₂ := by
  unfold generate_yaml_config
  rw [hcfg, hbs]

/-- Witness for C6: `demoState` and `demoState2` differ in results, report,
selection and counters but agree on the inputs, and yield equal documents. -/
theorem generate_yaml_config_deterministic_witness :
    demoState.sim_config = demoState2.sim_config ∧
    demoState.base_stations = demoState2.base_stations ∧
    generate_yaml_config demoState = generate_yaml_config demoState2 :=
  ⟨rfl, rfl, generate_yaml_config_deterministic demoState demoState2 rfl rfl⟩

/-- C1: with at least one enabled antenna, the reported percentage is
`100 * sqrt R` where `R` sums the squared per-antenna exposure ratios of the
enabled antennas, and two co-located antennas of equal contribution yield
`sqrt 2` times a single antenna's percentage (incoherent power summation).
The aggregator is modelled from the spec, its C++ source not being part of
this repository. -/
theorem aggregator_percentage_incoherent_sum (antennas : List SourceContribution)
    (hne : antennas.filter (fun a => a.enabled) ≠ []) :
    evaluate_percentage antennas =
      100 * Real.sqrt (((antennas.filter fun a => a.enabled).map
        fun a => (a.field_v_m / a.limit_v_m) ^ 2).sum) ∧
    ∀ e l : ℝ,
      evaluate_percentage [⟨e, l, true⟩, ⟨e, l, true⟩] =
        Real.sqrt 2 * evaluate_percentage [⟨e, l, true⟩] := by
  refine ⟨rfl, ?_⟩
  intro e l
  have ha : totalRatio [⟨e, l, true⟩, ⟨e, l, true⟩] = 2 * (e / l) ^ 2 := by
    simp [totalRatio, List.filter_cons]
    ring
  have hb : totalRatio [⟨e, l, true⟩] = (e / l) ^ 2 := by
    simp [totalRatio, List.filter_cons]
  unfold evaluate_percentage
  rw [ha, hb, Real.sqrt_mul (by norm_num : (0 : ℝ) ≤ 2)]
  ring

/-- Witness for C1 at a single unit contribution: the enabled filter is
nonempty and both equations hold there. -/
theorem aggregator_percentage_incoherent_sum_witness :
    (([⟨1, 1, true⟩] : List SourceContribution).filter (fun a => a.enabled) ≠ []) ∧
    evaluate_percentage [⟨1, 1, true⟩] = 100 * Real.sqrt (totalRatio [⟨1, 1, true⟩]) ∧
    evaluate_percentage [⟨1, 1, true⟩, ⟨1, 1, true⟩] =
      Real.sqrt 2 * evaluate_percentage [⟨1, 1, true⟩] := by
  have h := aggregator_percentage_incoherent_sum [⟨1, 1, true⟩]
    (by simp [List.filter_cons])
  exact ⟨by simp [List.filter_cons], h.1, h.2 1 1⟩

/-- C4: the generated document carries exactly the top-level keys `name`,
`grid`, `compliance` and `antennas` (the fields of `YamlConfig`), the grid and
compliance blocks echo the simulation configuration, and every exported antenna
entry has exactly the `YamlAntennaEntry` fields, with position `x`, `y` from
its base station and position `z` equal to tower height plus height offset. -/
theorem generate_yaml_config_shape (s : SessionState) :
    (generate_yaml_config s).name = s.sim_config.name ∧
    (generate_yaml_config s).grid =
      { x_min := s.sim_config.x_min, x_max := s.sim_config.x_max
        y_min := s.sim_config.y_min, y_max := s.sim_config.y_max
        z_level := s.sim_config.z_level, resolution := s.sim_config.resolution } ∧
    (generate_yaml_config s).compliance =
      { standard := s.sim_config.standard, category := s.sim_config.category } ∧
    ∀ entry ∈ (generate_yaml_config s).antennas,
      ∃ bs ∈ s.base_stations, ∃ ant ∈ bs.antennas, ant.enabled = true ∧
        entry =
          { id := bs.id ++ "_" ++ ant.id
            pattern_file := ant.pattern_file
            frequency_mhz := ant.frequency_mhz
            power_eirp_watts := ant.power_eirp_watts
            position := { x := bs.x, y := bs.y, z := bs.tower_height + ant.height_offset }
            orientation := { azimuth_deg := ant.azimuth_deg, tilt_deg := ant.tilt_deg } } := by
  refine ⟨rfl, rfl, rfl, ?_⟩
  intro entry hentry
  simp only [generate_yaml_config, List.mem_flatMap, List.mem_map, List.mem_filter] at hentry
  obtain ⟨bs, hbs, ant, ⟨hant, hen⟩, hentryEq⟩ := hentry
  exact ⟨bs, hbs, ant, hant, hen, hentryEq.symm⟩

/-- Witness for C4: the enabled demo antenna is exported for `demoState` and
satisfies the entry description. -/
theorem generate_yaml_config_shape_witness :
    demoEntry ∈ (generate_yaml_config demoState).antennas ∧
    (∃ bs ∈ demoState.base_stations, ∃ ant ∈ bs.antennas, ant.enabled = true ∧
      demoEntry =
        { id := bs.id ++ "_" ++ ant.id
          pattern_file := ant.pattern_file
          frequency_mhz := ant.frequency_mhz
          power_eirp_watts := ant.power_eirp_watts
          position := { x := bs.x, y := bs.y, z := bs.tower_height + ant.height_offset }
          orientation := { azimuth_deg := ant.azimuth_deg, tilt_deg := ant.tilt_deg } }) := by
  have hmem : demoEntry ∈ (generate_yaml_config demoState).antennas := by
    rw [demoState_antennas_eq]
    exact List.mem_singleton_self demoEntry
  exact ⟨hmem, (generate_yaml_config_shape demoState).2.2.2 demoEntry hmem⟩

/-- C7: on a nonempty frame, `get_max_exposure_point` returns the field values
of a row attaining the maximal `percentage_of_limit`, and the `max_percentage`
and `max_field` of `get_statistics` are the attained maxima of their columns. -/
theorem get_max_exposure_point_attains_max (df : List Row) (hne : df ≠ []) :
    (∃ r ∈ df,
      get_max_exposure_point df =
        some { x := r.x, y := r.y, z := r.z, field_value := r.field_value_v_m
               limit := r.limit_v_m, percentage := r.percentage_of_limit
               status := r.status } ∧
      ∀ s ∈ df, s.percentage_of_limit ≤ r.percentage_of_limit) ∧
    (∃ M, (get_statistics df).max_percentage = some M ∧
      (∃ r ∈ df, r.percentage_of_limit = M) ∧ ∀ s ∈ df, s.percentage_of_limit ≤ M) ∧
    (∃ M, (get_statistics df).max_field = some M ∧
      (∃ r ∈ df, r.field_value_v_m = M) ∧ ∀ s ∈ df, s.field_value_v_m ≤ M) := by
  refine ⟨?_, seriesMax_spec (fun r => r.percentage_of_limit) df hne,
    seriesMax_spec (fun r => r.field_value_v_m) df hne⟩
  obtain ⟨r, hr, hidx, hub⟩ := idxmaxRow_spec (fun s => s.percentage_of_limit) df hne
  refine ⟨r, hr, ?_, hub⟩
  unfold get_max_exposure_point
  rw [hidx]
  rfl

/-- Witness for C7 on the concrete frame `dfA`, whose maximum is the marginal
row at 90 percent. -/
theorem get_max_exposure_point_attains_max_witness :
    dfA ≠ [] ∧
    ((∃ r ∈ dfA,
      get_max_exposure_point dfA =
        some { x := r.x, y := r.y, z := r.z, field_value := r.field_value_v_m
               limit := r.limit_v_m, percentage := r.percentage_of_limit
               status := r.status } ∧
      ∀ s ∈ dfA, s.percentage_of_limit ≤ r.percentage_of_limit) ∧
    (∃ M, (get_statistics dfA).max_percentage = some M ∧
      (∃ r ∈ dfA, r.percentage_of_limit = M) ∧ ∀ s ∈ dfA, s.percentage_of_limit ≤ M) ∧
    (∃ M, (get_statistics dfA).max_field = some M ∧
      (∃ r ∈ dfA, r.field_value_v_m = M) ∧ ∀ s ∈ dfA, s.field_value_v_m ≤ M)) :=
  ⟨by decide, get_max_exposure_point_attains_max dfA (by decide)⟩

/-- C8: the exported antenna list has one entry per enabled antenna across all
base stations (disabled antennas are omitted), and every exported id joins the
base-station id and the antenna id with an underscore. -/
theorem generate_yaml_config_enabled_only (s : SessionState) :
    ((generate_yaml_config s).antennas).length =
      (s.base_stations.map fun bs =>
        (bs.antennas.filter fun ant => ant.enabled).length).sum ∧
    ∀ entry ∈ (generate_yaml_config s).antennas,
      ∃ bs ∈ s.base_stations, ∃ ant ∈ bs.antennas,
        ant.enabled = true ∧ entry.id = bs.id ++ "_" ++ ant.id := by
  constructor
  · show (s.base_stations.flatMap _).length = _
    rw [List.length_flatMap]
    simp [Function.comp_def]
  · intro entry hentry
    obtain ⟨bs, hbs, ant, hant, hen, hentryEq⟩ :=
      (generate_yaml_config_shape s).2.2.2 entry hentry
    exact ⟨bs, hbs, ant, hant, hen, by rw [hentryEq]⟩

/-- Witness for C8 on `demoState`: one enabled antenna of two is exported, and
its id is the underscore join. -/
theorem generate_yaml_config_enabled_only_witness :
    ((generate_yaml_config demoState).antennas).length =
      (demoState.base_stations.map fun bs =>
        (bs.antennas.filter fun ant => ant.enabled).length).sum ∧
    ((generate_yaml_config demoState).antennas).length = 1 ∧
    (∃ bs ∈ demoState.base_stations, ∃ ant ∈ bs.antennas,
      ant.enabled = true ∧ demoEntry.id = bs.id ++ "_" ++ ant.id) := by
  have h := generate_yaml_config_enabled_only demoState
  have hmem : demoEntry ∈ (generate_yaml_config demoState).antennas := by
    rw [demoState_antennas_eq]
    exact List.mem_singleton_self demoEntry
  exact ⟨h.1, by rw [demoState_antennas_eq]; rfl, h.2 demoEntry hmem⟩

/-- Unfolding of `pivot_to_grid` into its three components. -/
theorem pivot_to_grid_eq (df : List Row) (col : Row → ℚ) :
    pivot_to_grid df col =
      ((sortedUnique (df.map fun r => r.y)).map fun _ => sortedUnique (df.map fun r => r.x),
       (sortedUnique (df.map fun r => r.y)).map fun yv =>
         (sortedUnique (df.map fun r => r.x)).map fun _ => yv,
       (sortedUnique (df.map fun r => r.y)).map fun yv =>
         (sortedUnique (df.map fun r => r.x)).map fun xv => pivotCell df col xv yv) := rfl

/-- `sortedUnique` depends only on the multiset of values: permuting the input
list leaves it unchanged. -/
theorem sortedUnique_perm {l₁ l₂ : List ℚ} (h : l₁.Perm l₂) :
    sortedUnique l₁ = sortedUnique l₂ := by
  unfold sortedUnique
  refine List.eq_of_perm_of_sorted ?_ (List.sorted_insertionSort _ _)
    (List.sorted_insertionSort _ _)
  exact ((List.perm_insertionSort _ _).trans h.dedup).trans
    (List.perm_insertionSort _ _).symm

/-- `seriesMean` is invariant under permutation of the series. -/
theorem seriesMean_perm {l₁ l₂ : List ℚ} (h : l₁.Perm l₂) : seriesMean l₁ = seriesMean l₂ := by
  unfold seriesMean
  by_cases hl : l₁ = []
  · subst hl
    rw [if_pos rfl, if_pos h.symm.eq_nil]
  · have hl₂ : l₂ ≠ [] := fun hnil => hl (h.trans (hnil ▸ List.Perm.refl l₂)).eq_nil
    rw [if_neg hl, if_neg hl₂, h.sum_eq, h.length_eq]

/-- Each mean cell of the pivot is invariant under row permutation of the
frame. -/
theorem pivotCell_perm {df₁ df₂ : List Row} (col : Row → ℚ) (h : df₁.Perm df₂)
    (xv yv : ℚ) : pivotCell df₁ col xv yv = pivotCell df₂ col xv yv :=
  seriesMean_perm ((h.filter _).map col)

/-- A mean cell over a single-row group is that row's column value. -/
theorem pivotCell_singleton (df : List Row) (col : Row → ℚ) (xv yv : ℚ) (r : Row)
    (h : cellRows df xv yv = [r]) : pivotCell df col xv yv = some (col r) := by
  unfold pivotCell
  rw [h]
  simp [seriesMean]

/-- `pivot_to_grid` is invariant under row permutation of the frame. -/
theorem pivot_to_grid_perm {df₁ df₂ : List Row} (col : Row → ℚ) (h : df₁.Perm df₂) :
    pivot_to_grid df₁ col = pivot_to_grid df₂ col := by
  rw [pivot_to_grid_eq, pivot_to_grid_eq]
  have hx : sortedUnique (df₁.map fun r => r.x) = sortedUnique (df₂.map fun r => r.x) :=
    sortedUnique_perm (h.map _)
  have hy : sortedUnique (df₁.map fun r => r.y) = sortedUnique (df₂.map fun r => r.y) :=
    sortedUnique_perm (h.map _)
  rw [hx, hy]
  exact congrArg _ (congrArg _ (List.map_congr_left fun yv _ =>
    List.map_congr_left fun xv _ => pivotCell_perm col h xv yv))

/-- A boolean aggfunc cell over a single-row group applies the aggfunc to that
row. -/
theorem maskCell_singleton (df : List Row) (p : List Row → Bool) (xv yv : ℚ) (r : Row)
    (h : cellRows df xv yv = [r]) : maskCell df p xv yv = some (p [r]) := by
  unfold maskCell
  rw [h]

/-- Unfolding of `get_compliance_mask` into its three mask matrices. -/
theorem get_compliance_mask_eq (df : List Row) :
    get_compliance_mask df =
      ((sortedUnique (df.map fun r => r.y)).map fun yv =>
         (sortedUnique (df.map fun r => r.x)).map fun xv =>
           astypeBool (maskCell df (fun g => g.all fun r => r.status == "COMPLIANT") xv yv),
       (sortedUnique (df.map fun r => r.y)).map fun yv =>
         (sortedUnique (df.map fun r => r.x)).map fun xv =>
           astypeBool (maskCell df (fun g => g.any fun r => r.status == "MARGINAL") xv yv),
       (sortedUnique (df.map fun r => r.y)).map fun yv =>
         (sortedUnique (df.map fun r => r.x)).map fun xv =>
           astypeBool (maskCell df (fun g => g.any fun r => r.status == "NON_COMPLIANT") xv yv)) :=
  rfl

/-- C9: `pivot_to_grid` is row-order independent, and faithful on frames with
exactly one row per coordinate pair: permuting the rows yields identical
`X`, `Y`, `Z`, and the `Z` entry at row `i`, column `j` is the value column of
the unique row whose `y` is the i-th smallest distinct `y` and whose `x` is
the j-th smallest distinct `x`. -/
theorem pivot_to_grid_faithful_perm_invariant (df df' : List Row) (col : Row → ℚ)
    (hperm : df.Perm df') :
    pivot_to_grid df col = pivot_to_grid df' col ∧
    ∀ (i j : ℕ) (xv yv : ℚ) (r : Row) (Zrow : List (Option ℚ)),
      (sortedUnique (df.map fun s => s.x))[j]? = some xv →
      (sortedUnique (df.map fun s => s.y))[i]? = some yv →
      cellRows df xv yv = [r] →
      ((pivot_to_grid df col).2.2)[i]? = some Zrow →
      Zrow[j]? = some (some (col r)) := by
  refine ⟨pivot_to_grid_perm col hperm, ?_⟩
  intro i j xv yv r Zrow hxj hyi hcell hZ
  have hzz : ((pivot_to_grid df col).2.2)[i]? =
      some ((sortedUnique (df.map fun s => s.x)).map fun xv2 => pivotCell df col xv2 yv) := by
    rw [pivot_to_grid_eq]
    show ((sortedUnique (df.map fun s => s.y)).map fun yv2 =>
      (sortedUnique (df.map fun s => s.x)).map fun xv2 => pivotCell df col xv2 yv2)[i]? = _
    rw [List.getElem?_map, hyi]
    rfl
  rw [hzz] at hZ
  injection hZ with hZrow
  rw [← hZrow, List.getElem?_map, hxj]
  simp [pivotCell_singleton df col xv yv r hcell]

/-- Witness for C9 on the concrete frames `dfA` and its row permutation `dfB`:
the pivots agree and the `Z` cell at row 0, column 0 holds the value of
`dfRow0`, the unique row at coordinates `(0, 0)`. -/
theorem pivot_to_grid_faithful_perm_invariant_witness :
    dfA.Perm dfB ∧
    pivot_to_grid dfA (fun r => r.field_value_v_m) =
      pivot_to_grid dfB (fun r => r.field_value_v_m) ∧
    cellRows dfA 0 0 = [dfRow0] ∧
    ((sortedUnique (dfA.map fun s => s.x)).map fun xv2 =>
      pivotCell dfA (fun r => r.field_value_v_m) xv2 0)[0]? =
        some (some dfRow0.field_value_v_m) := by
  have hperm : dfA.Perm dfB := by decide
  have h := pivot_to_grid_faithful_perm_invariant dfA dfB (fun r => r.field_value_v_m) hperm
  refine ⟨hperm, h.1, by decide, ?_⟩
  refine h.2 0 0 0 0 dfRow0 ((sortedUnique (dfA.map fun s => s.x)).map fun xv2 =>
    pivotCell dfA (fun r => r.field_value_v_m) xv2 0) (by decide) (by decide) (by decide) ?_
  rw [pivot_to_grid_eq]
  show ((sortedUnique (dfA.map fun s => s.y)).map fun yv2 =>
    (sortedUnique (dfA.map fun s => s.x)).map fun xv2 =>
      pivotCell dfA (fun r => r.field_value_v_m) xv2 yv2)[0]? = _
  rw [List.getElem?_map, show (sortedUnique (dfA.map fun s => s.y))[0]? = some 0 by decide]
  rfl

/-- C10: on a frame with exactly one row per coordinate pair whose statuses all
lie in the three-status set, the three masks of `get_compliance_mask` are
mutually exclusive and jointly exhaustive: at each grid cell exactly one of
them is true. -/
theorem get_compliance_mask_partition (df : List Row)
    (hstatus : ∀ r ∈ df,
      r.status = "COMPLIANT" ∨ r.status = "MARGINAL" ∨ r.status = "NON_COMPLIANT")
    (i j : ℕ) (xv yv : ℚ) (r : Row)
    (hxj : (sortedUnique (df.map fun s => s.x))[j]? = some xv)
    (hyi : (sortedUnique (df.map fun s => s.y))[i]? = some yv)
    (hcell : cellRows df xv yv = [r])
    (crow mrow nrow : List Bool)
    (hc : ((get_compliance_mask df).1)[i]? = some crow)
    (hm : ((get_compliance_mask df).2.1)[i]? = some mrow)
    (hn : ((get_compliance_mask df).2.2)[i]? = some nrow) :
    ∃ c m n, crow[j]? = some c ∧ mrow[j]? = some m ∧ nrow[j]? = some n ∧
      ((c = true ∧ m = false ∧ n = false) ∨ (c = false ∧ m = true ∧ n = false) ∨
        (c = false ∧ m = false ∧ n = true)) := by
  have hr : r ∈ df := by
    have hmem : r ∈ cellRows df xv yv := by
      rw [hcell]; exact List.mem_singleton_self r
    exact (List.mem_filter.mp hmem).1
  have hcrow : crow = (sortedUnique (df.map fun s => s.x)).map fun xv2 =>
      astypeBool (maskCell df (fun g => g.all fun s => s.status == "COMPLIANT") xv2 yv) := by
    rw [get_compliance_mask_eq] at hc
    rw [List.getElem?_map, hyi] at hc
    injection hc with h
    exact h.symm
  have hmrow : mrow = (sortedUnique (df.map fun s => s.x)).map fun xv2 =>
      astypeBool (maskCell df (fun g => g.any fun s => s.status == "MARGINAL") xv2 yv) := by
    rw [get_compliance_mask_eq] at hm
    rw [List.getElem?_map, hyi] at hm
    injection hm with h
    exact h.symm
  have hnrow : nrow = (sortedUnique (df.map fun s => s.x)).map fun xv2 =>
      astypeBool (maskCell df (fun g => g.any fun s => s.status == "NON_COMPLIANT") xv2 yv) := by
    rw [get_compliance_mask_eq] at hn
    rw [List.getElem?_map, hyi] at hn
    injection hn with h
    exact h.symm
  refine ⟨astypeBool (maskCell df (fun g => g.all fun s => s.status == "COMPLIANT") xv yv),
    astypeBool (maskCell df (fun g => g.any fun s => s.status == "MARGINAL") xv yv),
    astypeBool (maskCell df (fun g => g.any fun s => s.status == "NON_COMPLIANT") xv yv),
    ?_, ?_, ?_, ?_⟩
  · rw [hcrow, List.getElem?_map, hxj]; rfl
  · rw [hmrow, List.getElem?_map, hxj]; rfl
  · rw [hnrow, List.getElem?_map, hxj]; rfl
  · rw [maskCell_singleton df _ xv yv r hcell, maskCell_singleton df _ xv yv r hcell,
      maskCell_singleton df _ xv yv r hcell]
    rcases hstatus r hr with h1 | h1 | h1 <;> simp [astypeBool, h1]

/-- Witness for C10 on the concrete frame `dfA`: at grid cell `(0, 0)` the
compliant mask alone is true (`dfRow0` is COMPLIANT there). -/
theorem get_compliance_mask_partition_witness :
    (∀ r ∈ dfA,
      r.status = "COMPLIANT" ∨ r.status = "MARGINAL" ∨ r.status = "NON_COMPLIANT") ∧
    ∃ c m n, ([true, false] : List Bool)[0]? = some c ∧
      ([false, true] : List Bool)[0]? = some m ∧
      ([false, false] : List Bool)[0]? = some n ∧
      ((c = true ∧ m = false ∧ n = false) ∨ (c = false ∧ m = true ∧ n = false) ∨
        (c = false ∧ m = false ∧ n = true)) := by
  refine ⟨by decide, ?_⟩
  exact get_compliance_mask_partition dfA (by decide) 0 0 0 0 dfRow0 (by decide) (by decide)
    (by decide) [true, false] [false, true] [false, false] (by decide) (by decide) (by decide)

end Emf
